import Mathlib

/-!
Verification of the search/cache/delivery core of a Telegram music bot.

The development shallowly embeds the relevant Python source files:
  - bot/services/cache.py      (Redis-backed caches and rate limiting)
  - bot/handlers/search.py     (search cascade and delivery pipeline)
  - bot/db.py                  (track upsert and local search)
  - bot/services/downloader.py (YouTube/SoundCloud search adapter)
  - bot/services/yandex_provider.py and bot/services/vk_provider.py

Redis is modelled as an association list from string keys to values with
absolute expiry timestamps, driven by an explicit logical clock; the cache
functions build exactly the key strings the code builds.  json round-trips
are modelled as the identity on the stored structured value (the code only
stores values that json round-trips losslessly).
-/

namespace MusicBot

/-! ### Configuration constants (bot/config.py defaults) -/

def MAX_DURATION : Nat := 600
def MAX_FILE_SIZE : Nat := 45 * 1024 * 1024
def CACHE_FILE_ID_TTL : Nat := 30 * 24 * 3600
def SEARCH_SESSION_TTL : Nat := 300
def RATE_LIMIT_REGULAR : Int := 10
def RATE_LIMIT_PREMIUM : Int := 999999
def COOLDOWN_REGULAR : Nat := 5
def COOLDOWN_PREMIUM : Nat := 1

/-! ### Injectivity of the decimal rendering used inside cache keys

The cache keys interpolate integers via Python f-strings, i.e. decimal
rendering, which corresponds to Nat.repr in Lean.  We prove Nat.repr is
injective, which is what makes distinct bitrates map to distinct
Delivery-Cache keys. -/

/-- Big-endian decimal digits of a natural number (n itself for n below 10). -/
def decDigits (n : Nat) : List Nat :=
  if h : n < 10 then [n]
  else decDigits (n / 10) ++ [n % 10]
decreasing_by exact Nat.div_lt_self (by omega) (by omega)

theorem decDigits_lt10 : ∀ n, ∀ d ∈ decDigits n, d < 10 := by
  intro n
  induction n using Nat.strong_induction_on with
  | _ n ih =>
    intro d hd
    unfold decDigits at hd
    by_cases h : n < 10
    · simp [h] at hd; omega
    · simp [h] at hd
      rcases hd with hd | hd
      · exact ih (n / 10) (Nat.div_lt_self (by omega) (by omega)) d hd
      · subst hd; exact Nat.mod_lt _ (by omega)

theorem decDigits_foldl : ∀ n, (decDigits n).foldl (fun a d => a * 10 + d) 0 = n := by
  intro n
  induction n using Nat.strong_induction_on with
  | _ n ih =>
    unfold decDigits
    by_cases h : n < 10
    · simp [h]
    · simp only [h, dite_false]
      rw [List.foldl_append]
      rw [ih (n / 10) (Nat.div_lt_self (by omega) (by omega))]
      simp [List.foldl]
      omega

theorem decDigits_inj {m n : Nat} (h : decDigits m = decDigits n) : m = n := by
  have hm := decDigits_foldl m
  have hn := decDigits_foldl n
  rw [h] at hm
  omega

theorem digitChar_inj_lt10 :
    ∀ a, a < 10 → ∀ b, b < 10 → Nat.digitChar a = Nat.digitChar b → a = b := by
  decide

theorem map_digitChar_inj : ∀ (l₁ l₂ : List Nat),
    (∀ d ∈ l₁, d < 10) → (∀ d ∈ l₂, d < 10) →
    l₁.map Nat.digitChar = l₂.map Nat.digitChar → l₁ = l₂ := by
  intro l₁
  induction l₁ with
  | nil =>
    intro l₂ _ _ h
    cases l₂ with
    | nil => rfl
    | cons b bs => simp at h
  | cons a as ih =>
    intro l₂ h₁ h₂ h
    cases l₂ with
    | nil => simp at h
    | cons b bs =>
      simp only [List.map, List.cons.injEq] at h
      have ha : a < 10 := h₁ a (by simp)
      have hb : b < 10 := h₂ b (by simp)
      have : a = b := digitChar_inj_lt10 a ha b hb h.1
      rw [this, ih bs (fun d hd => h₁ d (by simp [hd])) (fun d hd => h₂ d (by simp [hd])) h.2]

theorem toDigitsCore_eq_decDigits :
    ∀ (fuel n : Nat) (ds : List Char), n < fuel →
    Nat.toDigitsCore 10 fuel n ds = (decDigits n).map Nat.digitChar ++ ds := by
  intro fuel
  induction fuel with
  | zero => intro n ds h; omega
  | succ f ih =>
    intro n ds h
    rw [Nat.toDigitsCore]
    by_cases h0 : n / 10 = 0
    · have hn : n < 10 := by omega
      simp only [h0, if_true]
      unfold decDigits
      simp [hn, Nat.mod_eq_of_lt hn]
    · simp only [h0, if_false]
      have hn : ¬ n < 10 := by
        intro hc
        exact h0 (Nat.div_eq_of_lt hc)
      have hlt : n / 10 < f := by
        have h1 : n / 10 < n := Nat.div_lt_self (by omega) (by omega)
        omega
      rw [ih (n / 10) _ hlt]
      conv_rhs => rw [decDigits]
      simp [hn]

theorem natRepr_inj {m n : Nat} (h : Nat.repr m = Nat.repr n) : m = n := by
  have hd : Nat.toDigits 10 m = Nat.toDigits 10 n := by
    have := congrArg String.data h
    simpa [Nat.repr, List.asString] using this
  unfold Nat.toDigits at hd
  rw [toDigitsCore_eq_decDigits (m + 1) m [] (by omega),
      toDigitsCore_eq_decDigits (n + 1) n [] (by omega)] at hd
  simp only [List.append_nil] at hd
  exact decDigits_inj (map_digitChar_inj _ _ (decDigits_lt10 m) (decDigits_lt10 n) hd)

theorem string_append_cancel_left {a b c : String} (h : a ++ b = a ++ c) : b = c := by
  have hd := congrArg String.data h
  simp only [String.data_append] at hd
  exact String.ext (List.append_cancel_left hd)

/-! ### Track dictionaries and track rows

A provider search result is a Python dict; the keys that ever occur are
fixed, so it is embedded as a structure with optional fields for the keys
only some providers set (dict.get on a missing key gives None). -/

structure TrackDict where
  video_id : String
  title : String
  uploader : String
  duration : Nat
  duration_fmt : String
  source : String
  file_id : Option String := none
  ym_track_id : Option Nat := none
  vk_url : Option String := none
  upload_year : Option String := none
deriving Repr, DecidableEq

/-- A row of the Track ORM table (bot/models/track.py fields used by the core). -/
structure TrackRow where
  source_id : String
  title : Option String := none
  artist : Option String := none
  duration : Option Nat := none
  file_id : Option String := none
  source : Option String := none
  channel : Option String := none
  genre : Option String := none
  bpm : Option Nat := none
  downloads : Nat := 0
deriving Repr, DecidableEq

/-- Python `a or b` for an optional string a: falls through when a is None or empty. -/
def pyStrOr (a : Option String) (b : String) : String :=
  match a with
  | some s => if s = "" then b else s
  | none => b

/-- Python `a or b` for two optional strings (used by upsert_track's file_id or track.file_id). -/
def pyOptStrOr (a b : Option String) : Option String :=
  match a with
  | some s => if s = "" then b else some s
  | none => b

/-! ### Redis model

The store is an association list (newest binding first; lookups take the
first hit, so writing is consing).  Every value carries an optional
absolute expiry instant; an entry is live at time `now` iff it has no
expiry or `now` is before it.  `now` is a logical clock in seconds. -/

inductive RVal where
  | str : String → RVal
  | int : Int → RVal
  | tracks : List TrackDict → RVal
deriving Repr, DecidableEq

structure RedisEntry where
  val : RVal
  expiry : Option Nat
deriving Repr, DecidableEq

def RedisState := List (String × RedisEntry)

instance : DecidableEq RedisState := by
  unfold RedisState
  infer_instance

def RedisEntry.live (now : Nat) (e : RedisEntry) : Bool :=
  match e.expiry with
  | none => true
  | some t => now < t

def rlookup (st : RedisState) (k : String) : Option RedisEntry :=
  (st.find? (fun p => p.1 == k)).map (·.2)

/-- Redis GET (only live entries are visible). -/
def rget (now : Nat) (st : RedisState) (k : String) : Option RVal :=
  match rlookup st k with
  | some e => if e.live now then some e.val else none
  | none => none

/-- Redis SETEX: set a value with a ttl in seconds. -/
def rsetex (now : Nat) (st : RedisState) (k : String) (ttl : Nat) (v : RVal) : RedisState :=
  (k, ⟨v, some (now + ttl)⟩) :: st

/-- Redis EXISTS. -/
def rexists (now : Nat) (st : RedisState) (k : String) : Bool :=
  (rget now st k).isSome

/-- Redis TTL: remaining seconds, -1 for no expiry, -2 for missing. -/
def rttl (now : Nat) (st : RedisState) (k : String) : Int :=
  match rlookup st k with
  | some e =>
    if e.live now then
      match e.expiry with
      | some t => (t : Int) - (now : Int)
      | none => -1
    else -2
  | none => -2

/-- Redis INCR: returns the new value; creates the key at 1 (with no expiry)
when it is missing or expired; preserves the expiry otherwise.  The code
only ever INCRs keys that hold integers, so the non-integer case (a Redis
error) is modelled as restarting the counter. -/
def rincr (now : Nat) (st : RedisState) (k : String) : Int × RedisState :=
  match rlookup st k with
  | some e =>
    if e.live now then
      match e.val with
      | RVal.int n => (n + 1, (k, ⟨RVal.int (n + 1), e.expiry⟩) :: st)
      | _ => (1, (k, ⟨RVal.int 1, none⟩) :: st)
    else (1, (k, ⟨RVal.int 1, none⟩) :: st)
  | none => (1, (k, ⟨RVal.int 1, none⟩) :: st)

/-- Redis EXPIRE: set a ttl on a live key, no-op otherwise. -/
def rexpire (now : Nat) (st : RedisState) (k : String) (secs : Nat) : RedisState :=
  match rlookup st k with
  | some e => if e.live now then (k, ⟨e.val, some (now + secs)⟩) :: st else st
  | none => st

theorem rget_cons_ne (now : Nat) (st : RedisState) (k k' : String) (e : RedisEntry)
    (h : k' ≠ k) : rget now ((k, e) :: st) k' = rget now st k' := by
  simp only [rget, rlookup, List.find?]
  have : (k == k') = false := by
    simp only [beq_eq_false_iff_ne]
    exact fun hc => h hc.symm
  simp [this]

theorem rget_cons_self (now : Nat) (st : RedisState) (k : String) (e : RedisEntry) :
    rget now ((k, e) :: st) k = if e.live now then some e.val else none := by
  simp [rget, rlookup, List.find?]

theorem rget_rsetex_self (now now' : Nat) (st : RedisState) (k : String) (ttl : Nat)
    (v : RVal) (h : now' < now + ttl) :
    rget now' (rsetex now st k ttl v) k = some v := by
  simp [rsetex, rget_cons_self, RedisEntry.live, h]

theorem rget_rsetex_ne (now now' : Nat) (st : RedisState) (k k' : String) (ttl : Nat)
    (v : RVal) (h : k' ≠ k) :
    rget now' (rsetex now st k ttl v) k' = rget now' st k' :=
  rget_cons_ne now' st k k' _ h

/-! ### bot/services/cache.py -/

def fid_key (source_id : String) (bitrate : Nat) : String :=
  "fid:" ++ source_id ++ ":" ++ Nat.repr bitrate

/-- Cache.get_file_id. -/
def get_file_id (now : Nat) (st : RedisState) (source_id : String) (bitrate : Nat) :
    Option String :=
  match rget now st (fid_key source_id bitrate) with
  | some (RVal.str s) => some s
  | _ => none

/-- Cache.set_file_id. -/
def set_file_id (now : Nat) (st : RedisState) (source_id : String) (file_id : String)
    (bitrate : Nat) : RedisState :=
  rsetex now st (fid_key source_id bitrate) CACHE_FILE_ID_TTL (RVal.str file_id)

/-- Cache.store_search (json.dumps modelled as the identity embedding). -/
def store_search (now : Nat) (st : RedisState) (session_id : String)
    (results : List TrackDict) : RedisState :=
  rsetex now st ("search:" ++ session_id) SEARCH_SESSION_TTL (RVal.tracks results)

/-- Cache.get_search.  json.dumps of a list is a non-empty string, so the
Python truthiness test on the raw string succeeds even for an empty list. -/
def get_search (now : Nat) (st : RedisState) (session_id : String) :
    Option (List TrackDict) :=
  match rget now st ("search:" ++ session_id) with
  | some (RVal.tracks l) => some l
  | _ => none

/-- Python str.lower modelled character-wise. -/
def pyLower (s : String) : String :=
  String.mk (s.data.map Char.toLower)

def dropWhileSpace : List Char → List Char
  | [] => []
  | c :: cs => if c.isWhitespace then dropWhileSpace cs else c :: cs

/-- Python str.strip: remove leading and trailing whitespace. -/
def pyStrip (s : String) : String :=
  String.mk ((dropWhileSpace ((dropWhileSpace s.data).reverse)).reverse)

def qcache_key (query source : String) : String :=
  "qcache:" ++ source ++ ":" ++ pyStrip (pyLower query)

/-- Cache.get_query_cache. -/
def get_query_cache (now : Nat) (st : RedisState) (query source : String) :
    Option (List TrackDict) :=
  match rget now st (qcache_key query source) with
  | some (RVal.tracks l) => some l
  | _ => none

/-- Cache.set_query_cache (120 s TTL). -/
def set_query_cache (now : Nat) (st : RedisState) (query : String)
    (results : List TrackDict) (source : String) : RedisState :=
  rsetex now st (qcache_key query source) 120 (RVal.tracks results)

def cd_key (user_id : Nat) : String := "cd:" ++ Nat.repr user_id

def limit_key (user_id : Nat) : String := "limit:" ++ Nat.repr user_id

/-- Cache.check_rate_limit: returns the updated store and (allowed, cooldown_seconds). -/
def check_rate_limit (now : Nat) (st : RedisState) (user_id : Nat) (is_premium : Bool) :
    RedisState × Bool × Int :=
  let cooldown_key := cd_key user_id
  if rexists now st cooldown_key then
    let ttl := rttl now st cooldown_key
    (st, false, max ttl 1)
  else
    let r := rincr now st (limit_key user_id)
    let count := r.1
    let st1 := r.2
    let st2 := if count = 1 then rexpire now st1 (limit_key user_id) 3600 else st1
    let max_limit := if is_premium then RATE_LIMIT_PREMIUM else RATE_LIMIT_REGULAR
    if count > max_limit then (st2, false, 0)
    else
      let cooldown := if is_premium then COOLDOWN_PREMIUM else COOLDOWN_REGULAR
      let st3 := rsetex now st2 cooldown_key cooldown (RVal.str "1")
      (st3, true, 0)

/-! ### bot/handlers/search.py — helpers, search cascade, selection, delivery -/

/-- search.py _fmt_duration (guards falsy seconds). -/
def fmt_duration_search (seconds : Option Nat) : String :=
  match seconds with
  | none => "?:??"
  | some s =>
    if s = 0 then "?:??"
    else Nat.repr (s / 60) ++ ":" ++ (if s % 60 < 10 then "0" else "") ++ Nat.repr (s % 60)

/-- downloader.py _fmt_duration (no falsy guard; f-string 02d zero padding). -/
def fmt_duration_dl (seconds : Nat) : String :=
  Nat.repr (seconds / 60) ++ ":" ++ (if seconds % 60 < 10 then "0" else "") ++
    Nat.repr (seconds % 60)

/-- Conversion of a local Track row into a result dict (search.py lines 157-166). -/
def localToDict (tr : TrackRow) : TrackDict :=
  { video_id := tr.source_id
    title := pyStrOr tr.title "Unknown"
    uploader := pyStrOr tr.artist "Unknown"
    duration := tr.duration.getD 0
    duration_fmt :=
      match tr.duration with
      | some d => if d = 0 then "?:??" else fmt_duration_search (some d)
      | none => "?:??"
    source := pyStrOr tr.source "channel"
    file_id := tr.file_id }

/-- One query-cached provider stage of _do_search (STEP 3 and STEP 4,
search.py lines 193-207): consult the query cache; on a miss call the
provider and cache its results only when they are non-empty.  Returns the
results, the updated store and the number of provider invocations. -/
def search_cached_step (now : Nat) (st : RedisState) (query source : String)
    (providerRes : List TrackDict) : List TrackDict × RedisState × Nat :=
  match get_query_cache now st query source with
  | some cached => (cached, st, 0)
  | none =>
    if providerRes.isEmpty then (providerRes, st, 1)
    else (providerRes, set_query_cache now st query providerRes source, 1)

structure CascadeOut where
  results : List TrackDict
  st : RedisState
  yandexCalls : Nat
  youtubeCalls : Nat
  soundcloudCalls : Nat
  vkCalls : Nat

/-- The provider cascade of _do_search (search.py lines 153-214).  The
provider adapters are passed by the result lists their single invocation
would produce (each adapter already converts failures to [] internally);
the *Calls fields count how many times each provider is actually invoked. -/
def do_search_cascade (now : Nat) (st : RedisState) (query : String)
    (localRows : List TrackRow) (yandexRes ytRes scRes vkRes : List TrackDict) :
    CascadeOut :=
  if localRows.isEmpty then
    -- STEP 2: Yandex Music (invoked unconditionally once local is empty)
    let r2 := yandexRes
    if ¬ r2.isEmpty then ⟨r2, st, 1, 0, 0, 0⟩
    else
      -- STEP 3: YouTube behind the query cache
      let s3 := search_cached_step now st query "youtube" ytRes
      if ¬ s3.1.isEmpty then ⟨s3.1, s3.2.1, 1, s3.2.2, 0, 0⟩
      else
        -- STEP 4: SoundCloud behind the query cache
        let s4 := search_cached_step now s3.2.1 query "soundcloud" scRes
        if ¬ s4.1.isEmpty then ⟨s4.1, s4.2.1, 1, s3.2.2, s4.2.2, 0⟩
        else
          -- STEP 5: VK fallback
          ⟨vkRes, s4.2.1, 1, s3.2.2, s4.2.2, 1⟩
  else
    -- STEP 1: local DB matches win outright
    ⟨localRows.map localToDict, st, 0, 0, 0, 0⟩

/-- Python list indexing semantics: non-negative indices from the front,
negative indices from the back, IndexError (none) otherwise. -/
def pyIndex {α : Type} (l : List α) (i : Int) : Option α :=
  let j := if i < 0 then (l.length : Int) + i else i
  if j < 0 then none else l[j.toNat]?

inductive SelectOutcome where
  | sessionExpired
  | proceed : TrackDict → SelectOutcome
  | pyError
deriving Repr, DecidableEq

/-- Session resolution in handle_track_select (search.py lines 413-418):
load the stored result list; reply session_expired when it is missing,
empty, or the index is at least its length; otherwise take results[i]
with Python indexing (an IndexError would escape the handler). -/
def handle_track_select_resolve (now : Nat) (st : RedisState) (sid : String) (i : Int) :
    SelectOutcome :=
  match get_search now st sid with
  | none => SelectOutcome.sessionExpired
  | some results =>
    if results.isEmpty ∨ i ≥ (results.length : Int) then SelectOutcome.sessionExpired
    else
      match pyIndex results i with
      | some tr => SelectOutcome.proceed tr
      | none => SelectOutcome.pyError

inductive DeliverOutcome where
  | delivered : Nat → Nat → DeliverOutcome   -- actual bitrate, file size
  | tooLargeFinal
  | downloadError : String → DeliverOutcome
deriving Repr, DecidableEq

/-- The size-guarded download section of handle_track_select (search.py
lines 470-502), entered after the local-handle and delivery-cache fast
paths missed.  `fetch b` abstracts the provider download at bitrate b,
returning the byte size of the produced file or raising; sent_file_id is
the handle the messaging platform returns on upload.  Besides the outcome
it returns the updated Redis store and the list of bitrates fetched. -/
def deliver_download (now : Nat) (st : RedisState) (video_id source : String)
    (bitrate : Nat) (fetch : Nat → Except String Nat) (sent_file_id : String) :
    DeliverOutcome × RedisState × List Nat :=
  match fetch bitrate with
  | Except.error e => (DeliverOutcome.downloadError e, st, [bitrate])
  | Except.ok size =>
    if size > MAX_FILE_SIZE ∧ bitrate > 128 ∧ source ≠ "vk" ∧ source ≠ "yandex" then
      match fetch 128 with
      | Except.error e => (DeliverOutcome.downloadError e, st, [bitrate, 128])
      | Except.ok size2 =>
        if size2 > MAX_FILE_SIZE then (DeliverOutcome.tooLargeFinal, st, [bitrate, 128])
        else
          (DeliverOutcome.delivered 128 size2,
           set_file_id now st video_id sent_file_id 128, [bitrate, 128])
    else
      (DeliverOutcome.delivered bitrate size,
       set_file_id now st video_id sent_file_id bitrate, [bitrate])

/-! ### bot/db.py — upsert_track

The Track table is an association list of rows; select(...).where(source_id
= sid) with scalar_one_or_none is first-match lookup, and update(...).where
rewrites every matching row. -/

def upsert_track (table : List TrackRow) (source_id : String)
    (title artist : Option String) (duration : Option Nat) (file_id : Option String)
    (source : String) (channel genre : Option String) (bpm : Option Nat) :
    List TrackRow × TrackRow :=
  match table.find? (fun t => t.source_id == source_id) with
  | none =>
    let tr : TrackRow :=
      { source_id := source_id, title := title, artist := artist, duration := duration
        file_id := file_id, source := some source, channel := channel, genre := genre
        bpm := bpm, downloads := 1 }
    (table ++ [tr], tr)
  | some tr =>
    let tr' : TrackRow :=
      { tr with file_id := pyOptStrOr file_id tr.file_id, downloads := tr.downloads + 1 }
    (table.map (fun t => if t.source_id == source_id then tr' else t), tr')

/-! ### bot/services/downloader.py — _search_sync (YouTube / SoundCloud)

The yt-dlp extract_info call is abstracted as an Except value: an error
models an exception from the provider, ok none models info = None, and
ok (some entries) the flat entry list (entries themselves may be None).
The regex-based title cleanup _parse_artist_title is passed in as an
opaque function; every theorem below is universally quantified over it. -/

structure YtEntry where
  id : Option String := none
  title : Option String := none
  uploader : Option String := none
  channel : Option String := none
  duration : Option Nat := none
  upload_date : Option String := none
  release_date : Option String := none
  release_year : Option Nat := none
deriving Repr, DecidableEq

/-- downloader.py _extract_year (Python slicing upload_date[:4] modelled on
the char list). -/
def extract_year (e : YtEntry) : Option String :=
  let ud := pyStrOr e.upload_date (pyStrOr e.release_date "")
  if ud ≠ "" ∧ 4 ≤ ud.length then some (String.mk (ud.data.take 4))
  else
    match e.release_year with
    | some y => if y ≠ 0 then some (Nat.repr y) else none
    | none => none

/-- One iteration of the filter-and-convert loop of _search_sync. -/
def yt_entry_step (parse : String → String → String × String) (source : String)
    (acc : List TrackDict) (oe : Option YtEntry) : List TrackDict :=
  match oe with
  | none => acc
  | some e =>
    let d := e.duration.getD 0
    if d = 0 ∨ d > MAX_DURATION then acc
    else
      let raw_title := e.title.getD "Unknown"
      let uploader := pyStrOr e.uploader (pyStrOr e.channel "Unknown")
      let p := parse raw_title uploader
      acc ++ [{ video_id := e.id.getD "", title := p.2, uploader := p.1, duration := d
                duration_fmt := fmt_duration_dl d, source := source
                upload_year := extract_year e }]

/-- The per-entry filter-and-convert loop of _search_sync (lines 160-181). -/
def yt_entries_loop (parse : String → String → String × String) (source : String)
    (entries : List (Option YtEntry)) : List TrackDict :=
  entries.foldl (yt_entry_step parse source) []

/-- downloader.py _search_sync: the whole body is inside try/except, the
except branch returning []. -/
def search_sync (parse : String → String → String × String)
    (extractRes : Except String (Option (List (Option YtEntry))))
    (max_results : Nat) (source : String) : List TrackDict :=
  match extractRes with
  | Except.error _ => []
  | Except.ok info =>
    let entries := info.getD []
    (yt_entries_loop parse source entries).take max_results

/-! ### bot/services/yandex_provider.py -/

structure YArtist where
  name : Option String := none
deriving Repr, DecidableEq

structure YTrack where
  title : Option String := none
  artists : List YArtist := []
  duration_ms : Option Nat := none
  id : Option Nat := none
deriving Repr, DecidableEq

/-- yandex_provider.py _track_to_dict.  int(track.id) raises on a missing
id, which the surrounding try/except turns into None. -/
def track_to_dict (track : YTrack) (source_id : Option String) : Option TrackDict :=
  let title := pyStrip (track.title.getD "")
  let names := track.artists.filterMap (fun a =>
    match a.name with
    | some n => if n = "" then none else some n
    | none => none)
  let artist := pyStrip (String.intercalate ", " names)
  if title = "" ∨ artist = "" then none
  else
    let dur_ms := track.duration_ms.getD 0
    if dur_ms ≠ 0 ∧ dur_ms > MAX_DURATION * 1000 then none
    else
      let track_id : Option String :=
        let fallback : Option String :=
          match track.id with
          | some i => if i ≠ 0 then some ("ym_" ++ Nat.repr i) else none
          | none => none
        match source_id with
        | some sid => if sid = "" then fallback else some sid
        | none => fallback
      match track_id with
      | none => none
      | some tid =>
        match track.id with
        | none => none   -- int(None) raises; caught, converted to None
        | some ymid =>
          let s := dur_ms / 1000
          some { video_id := tid, ym_track_id := some ymid, title := title
                 uploader := artist, duration := s
                 duration_fmt :=
                   Nat.repr (s / 60) ++ ":" ++ (if s % 60 < 10 then "0" else "") ++
                     Nat.repr (s % 60)
                 source := "yandex" }

/-- The result-accumulation loop of search_yandex (lines 122-128): append
each convertible track, stopping once the limit is reached. -/
def ym_loop (limit : Nat) (acc : List TrackDict) : List YTrack → List TrackDict
  | [] => acc
  | tr :: rest =>
    let acc' :=
      match track_to_dict tr none with
      | some d => acc ++ [d]
      | none => acc
    if limit ≤ acc'.length then acc' else ym_loop limit acc' rest

/-- yandex_provider.py search_yandex.  token/installed/client model the
configuration guards; searchRes is the provider call (error = exception,
ok none = falsy result object, ok (some none) = falsy result.tracks,
ok (some (some l)) = result.tracks.results). -/
def search_yandex (token : Option String) (installed : Bool) (client : Option Unit)
    (searchRes : Except String (Option (Option (List YTrack)))) (limit : Nat) :
    List TrackDict :=
  match token with
  | none => []
  | some _ =>
    if ¬ installed then []
    else
      match client with
      | none => []
      | some _ =>
        match searchRes with
        | Except.error _ => []
        | Except.ok none => []
        | Except.ok (some none) => []
        | Except.ok (some (some l)) => ym_loop limit [] l

/-! ### bot/services/vk_provider.py -/

structure VkTrack where
  artist : Option String := none
  title : Option String := none
  duration : Option Nat := none
  url : Option String := none
  owner_id : Option Int := none
  id : Option Int := none
deriving Repr, DecidableEq

def pyOptIntStr (o : Option Int) : String :=
  match o with
  | some n => toString n
  | none => "None"

/-- The result dict built for one accepted VK track. -/
def vk_track_dict (tr : VkTrack) : TrackDict :=
  { video_id := "vk_" ++ pyOptIntStr tr.owner_id ++ "_" ++ pyOptIntStr tr.id
    vk_url := some (tr.url.getD ""), title := pyStrip (tr.title.getD "")
    uploader := pyStrip (tr.artist.getD ""), duration := tr.duration.getD 0
    duration_fmt := fmt_duration_dl (tr.duration.getD 0), source := "vk" }

/-- The per-track filter loop of _search_vk_sync (lines 53-74). -/
def vk_loop (limit : Nat) (acc : List TrackDict) : List VkTrack → List TrackDict
  | [] => acc
  | tr :: rest =>
    if tr.url.getD "" = "" ∨ pyStrip (tr.artist.getD "") = "" ∨
        pyStrip (tr.title.getD "") = "" then vk_loop limit acc rest
    else if tr.duration.getD 0 = 0 ∨ tr.duration.getD 0 > MAX_DURATION then
      vk_loop limit acc rest
    else
      let acc' := acc ++ [vk_track_dict tr]
      if limit ≤ acc'.length then acc' else vk_loop limit acc' rest

/-- vk_provider.py _search_vk_sync: audioOk models _get_vk_audio() being
non-None, searchRes the audio.search call. -/
def search_vk_sync (audioOk : Bool) (searchRes : Except String (List VkTrack))
    (limit : Nat) : List TrackDict :=
  if ¬ audioOk then []
  else
    match searchRes with
    | Except.error _ => []
    | Except.ok tracks => vk_loop limit [] tracks

/-- vk_provider.py search_vk: returns [] when VK_TOKEN is unset or empty
(Python truthiness), otherwise runs _search_vk_sync in the worker pool. -/
def search_vk (token : Option String) (audioOk : Bool)
    (searchRes : Except String (List VkTrack)) (limit : Nat) : List TrackDict :=
  match token with
  | none => []
  | some t => if t = "" then [] else search_vk_sync audioOk searchRes limit

/-! ### Key disjointness helpers -/

theorem fid_key_ne (source_id : String) {B B' : Nat} (h : B ≠ B') :
    fid_key source_id B ≠ fid_key source_id B' := by
  intro hc
  exact h (natRepr_inj (string_append_cancel_left hc))

theorem cd_key_ne_limit_key (u : Nat) : cd_key u ≠ limit_key u := by
  intro h
  have hd := congrArg String.data h
  simp only [cd_key, limit_key, String.data_append] at hd
  simp only [List.cons_append, List.cons.injEq] at hd
  exact absurd hd.1 (by decide)

/-! ### Claim theorems -/

/-- C1: for every query for which the local index yields at least one
match, the search cascade returns those local results (converted to result
dicts) and invokes none of search_yandex, search_tracks(youtube),
search_tracks(soundcloud) or search_vk. -/
theorem C1_local_short_circuit (now : Nat) (st : RedisState) (query : String)
    (localRows : List TrackRow) (yandexRes ytRes scRes vkRes : List TrackDict)
    (h : localRows ≠ []) :
    let out := do_search_cascade now st query localRows yandexRes ytRes scRes vkRes
    out.yandexCalls = 0 ∧ out.youtubeCalls = 0 ∧ out.soundcloudCalls = 0 ∧
      out.vkCalls = 0 ∧ out.results = localRows.map localToDict := by
  have hne : localRows.isEmpty = false := by
    cases localRows with
    | nil => exact absurd rfl h
    | cons a l => rfl
  simp [do_search_cascade, hne]

/-- A concrete local-index Track row used by C1's witness. -/
def sampleRow : TrackRow :=
  { source_id := "id1", title := some "T", artist := some "A", duration := some 120,
    file_id := some "f", source := some "youtube", channel := some "tequila",
    downloads := 3 }

/-- Witness for C1 at a concrete one-row local index. -/
theorem C1_local_short_circuit_witness :
    ([sampleRow] : List TrackRow) ≠ [] ∧
    (let out := do_search_cascade 0 [] "bones" [sampleRow] [] [] [] []
     out.yandexCalls = 0 ∧ out.youtubeCalls = 0 ∧ out.soundcloudCalls = 0 ∧
       out.vkCalls = 0 ∧ out.results = [sampleRow].map localToDict) :=
  ⟨by decide, C1_local_short_circuit 0 [] "bones" [sampleRow] [] [] [] [] (by decide)⟩

/-- C2: delivery-cache entries are isolated per bitrate.  After
set_file_id(id, handle, B): reading back at B yields the handle, reading
at any other bitrate is exactly what the previous store yielded (so a
handle stored for bitrate B is never served for B' and, from a state with
no entry for (id, B'), the read at B' is None). -/
theorem C2_bitrate_isolation (now : Nat) (st : RedisState) (id handle : String)
    (B B' : Nat) (h : B ≠ B') :
    get_file_id now (set_file_id now st id handle B) id B = some handle ∧
    get_file_id now (set_file_id now st id handle B) id B' = get_file_id now st id B' ∧
    (get_file_id now st id B' = none →
      get_file_id now (set_file_id now st id handle B) id B' = none) := by
  have hkey : fid_key id B' ≠ fid_key id B := fid_key_ne id (Ne.symm h)
  refine ⟨?_, ?_, ?_⟩
  · unfold get_file_id set_file_id
    rw [rget_rsetex_self]
    unfold CACHE_FILE_ID_TTL
    omega
  · unfold get_file_id set_file_id
    rw [rget_rsetex_ne _ _ _ _ _ _ _ hkey]
  · intro hnone
    unfold get_file_id set_file_id at *
    rw [rget_rsetex_ne _ _ _ _ _ _ _ hkey]
    exact hnone

/-- Witness for C2 at bitrates 192 and 320 on the empty store. -/
theorem C2_bitrate_isolation_witness :
    (192 ≠ 320) ∧
    (get_file_id 0 (set_file_id 0 [] "idA" "handleA" 192) "idA" 192 = some "handleA" ∧
     get_file_id 0 (set_file_id 0 [] "idA" "handleA" 192) "idA" 320 =
       get_file_id 0 ([] : RedisState) "idA" 320 ∧
     (get_file_id 0 ([] : RedisState) "idA" 320 = none →
       get_file_id 0 (set_file_id 0 [] "idA" "handleA" 192) "idA" 320 = none)) :=
  ⟨by decide, C2_bitrate_isolation 0 [] "idA" "handleA" 192 320 (by decide)⟩

/-- Reading back a just-stored delivery handle at the same (id, bitrate) key. -/
theorem get_file_id_set_self (now : Nat) (st : RedisState) (id fid : String) (br : Nat) :
    get_file_id now (set_file_id now st id fid br) id br = some fid := by
  unfold get_file_id set_file_id
  rw [rget_rsetex_self]
  unfold CACHE_FILE_ID_TTL
  omega

/-- C3 counterexample: an empty provider result is not cached, so a second
identical query one second later (well inside the 120 s TTL) invokes the
provider again — two invocations, not at most one. -/
theorem C3_empty_results_counterexample :
    (search_cached_step 0 [] "imagine dragons bones" "youtube" []).2.2 = 1 ∧
    (search_cached_step 1
        (search_cached_step 0 [] "imagine dragons bones" "youtube" []).2.1
        "imagine dragons bones" "youtube" []).2.2 = 1 := by
  decide

/-- C3 (amended): within the TTL window the provider is invoked at most
once and both calls return the same list, provided the provider's result
list is non-empty (an empty result is not cached, see the counterexample);
and a cached entry — even an empty list — always suppresses the provider
call. -/
theorem C3_query_cache_idempotence :
    (∀ (now1 now2 : Nat) (st : RedisState) (query source : String)
        (provider : List TrackDict),
      get_query_cache now1 st query source = none → provider ≠ [] →
      now2 < now1 + 120 →
      let c1 := search_cached_step now1 st query source provider
      let c2 := search_cached_step now2 c1.2.1 query source provider
      c1.2.2 + c2.2.2 = 1 ∧ c1.1 = provider ∧ c2.1 = provider) ∧
    (∀ (now : Nat) (st : RedisState) (query source : String)
        (provider cached : List TrackDict),
      get_query_cache now st query source = some cached →
      (search_cached_step now st query source provider).2.2 = 0 ∧
      (search_cached_step now st query source provider).1 = cached) := by
  constructor
  · intro now1 now2 st q src prov hmiss hne hlt
    have hprovE : prov.isEmpty = false := by
      cases prov with
      | nil => exact absurd rfl hne
      | cons a l => rfl
    have hhit : get_query_cache now2 (set_query_cache now1 st q prov src) q src =
        some prov := by
      unfold get_query_cache set_query_cache
      rw [rget_rsetex_self _ _ _ _ _ _ hlt]
    simp [search_cached_step, hmiss, hprovE, hhit]
  · intro now st q src prov cached hcached
    simp [search_cached_step, hcached]

/-- A concrete candidate dict (a 215 s YouTube result). -/
def dictA : TrackDict :=
  { video_id := "vA", title := "Bones", uploader := "Imagine Dragons", duration := 215,
    duration_fmt := "3:35", source := "youtube" }

/-- A second concrete candidate dict. -/
def dictB : TrackDict :=
  { video_id := "vB", title := "Demons", uploader := "Imagine Dragons", duration := 177,
    duration_fmt := "2:57", source := "youtube" }

/-- A third concrete candidate dict. -/
def dictC : TrackDict :=
  { video_id := "vC", title := "Radioactive", uploader := "Imagine Dragons",
    duration := 187, duration_fmt := "3:07", source := "youtube" }

/-- Witness for C3 at concrete inputs: a fresh store with a non-empty
provider (both facts checked concretely), and a store holding a cached
empty entry. -/
theorem C3_query_cache_idempotence_witness :
    (get_query_cache 0 ([] : RedisState) "q" "youtube" = none ∧
     ([dictA] : List TrackDict) ≠ [] ∧ (50 : Nat) < 0 + 120 ∧
     (let c1 := search_cached_step 0 [] "q" "youtube" [dictA]
      let c2 := search_cached_step 50 c1.2.1 "q" "youtube" [dictA]
      c1.2.2 + c2.2.2 = 1 ∧ c1.1 = [dictA] ∧ c2.1 = [dictA])) ∧
    (get_query_cache 10 (set_query_cache 0 [] "q2" [] "youtube") "q2" "youtube" =
        some [] ∧
     (search_cached_step 10 (set_query_cache 0 [] "q2" [] "youtube") "q2" "youtube"
        [dictB]).2.2 = 0 ∧
     (search_cached_step 10 (set_query_cache 0 [] "q2" [] "youtube") "q2" "youtube"
        [dictB]).1 = []) :=
  ⟨⟨by decide, by decide, by decide,
    C3_query_cache_idempotence.1 0 50 [] "q" "youtube" [dictA] (by decide) (by decide)
      (by decide)⟩,
   ⟨by decide,
    C3_query_cache_idempotence.2 10 (set_query_cache 0 [] "q2" [] "youtube") "q2"
      "youtube" [dictB] [] (by decide)⟩⟩

/-- C4 evaluation at the failing inputs: with a live session holding three
candidates, index -1 delivers the *last* candidate and index -4 raises an
IndexError, while the in-range index 1 delivers the second candidate and
index 99 / an unknown session token report session_expired.  The claim
(resolution fails closed for every index outside [0, length)) is violated
by every negative index. -/
theorem C4_negative_index_eval :
    handle_track_select_resolve 0 (store_search 0 [] "sess" [dictA, dictB, dictC])
        "sess" (-1) = SelectOutcome.proceed dictC ∧
    handle_track_select_resolve 0 (store_search 0 [] "sess" [dictA, dictB, dictC])
        "sess" (-4) = SelectOutcome.pyError ∧
    handle_track_select_resolve 0 (store_search 0 [] "sess" [dictA, dictB, dictC])
        "sess" 1 = SelectOutcome.proceed dictB ∧
    handle_track_select_resolve 0 (store_search 0 [] "sess" [dictA, dictB, dictC])
        "sess" 99 = SelectOutcome.sessionExpired ∧
    handle_track_select_resolve 0 (store_search 0 [] "sess" [dictA, dictB, dictC])
        "nonexistent-token" 0 = SelectOutcome.sessionExpired := by
  decide

/-- C5: oversized-download downgrade.  For a transcoding source (not vk or
yandex) at a requested bitrate above 128, if the first fetch is oversized
the pipeline fetches exactly once more, at bitrate 128; if that file fits,
the outcome is delivered-at-128 and the delivery cache is keyed by the
downgraded bitrate 128; if it is still oversized, the outcome is the
too-large failure and nothing is cached. -/
theorem C5_oversize_downgrade (now : Nat) (st : RedisState) (video_id source : String)
    (bitrate : Nat) (fetch : Nat → Except String Nat) (fid : String) (s1 : Nat)
    (hsrc1 : source ≠ "vk") (hsrc2 : source ≠ "yandex") (hbr : bitrate > 128)
    (h1 : fetch bitrate = Except.ok s1) (hbig : s1 > MAX_FILE_SIZE) :
    let out := deliver_download now st video_id source bitrate fetch fid
    out.2.2 = [bitrate, 128] ∧
    (∀ s2, fetch 128 = Except.ok s2 → s2 ≤ MAX_FILE_SIZE →
      out.1 = DeliverOutcome.delivered 128 s2 ∧
      get_file_id now out.2.1 video_id 128 = some fid) ∧
    (∀ s2, fetch 128 = Except.ok s2 → s2 > MAX_FILE_SIZE →
      out.1 = DeliverOutcome.tooLargeFinal ∧ out.2.1 = st) ∧
    (∀ e, fetch 128 = Except.error e → out.1 = DeliverOutcome.downloadError e) := by
  intro out
  have hcond : (s1 > MAX_FILE_SIZE ∧ bitrate > 128 ∧ source ≠ "vk" ∧ source ≠ "yandex") :=
    ⟨hbig, hbr, hsrc1, hsrc2⟩
  cases hf : fetch 128 with
  | error e =>
    have hout : out = (DeliverOutcome.downloadError e, st, [bitrate, 128]) := by
      show deliver_download now st video_id source bitrate fetch fid = _
      unfold deliver_download
      rw [h1]
      dsimp only
      rw [if_pos hcond, hf]
    refine ⟨by rw [hout], ?_, ?_, ?_⟩
    · intro s2 he
      exact absurd he (by simp)
    · intro s2 he
      exact absurd he (by simp)
    · intro e' he
      cases he
      rw [hout]
  | ok s2 =>
    by_cases hs : s2 > MAX_FILE_SIZE
    · have hout : out = (DeliverOutcome.tooLargeFinal, st, [bitrate, 128]) := by
        show deliver_download now st video_id source bitrate fetch fid = _
        unfold deliver_download
        rw [h1]
        dsimp only
        rw [if_pos hcond, hf]
        dsimp only
        rw [if_pos hs]
      refine ⟨by rw [hout], ?_, ?_, ?_⟩
      · intro s2' he hle
        cases he
        omega
      · intro s2' he _
        cases he
        rw [hout]
        exact ⟨rfl, rfl⟩
      · intro e' he
        exact absurd he (by simp)
    · have hout : out = (DeliverOutcome.delivered 128 s2,
          set_file_id now st video_id fid 128, [bitrate, 128]) := by
        show deliver_download now st video_id source bitrate fetch fid = _
        unfold deliver_download
        rw [h1]
        dsimp only
        rw [if_pos hcond, hf]
        dsimp only
        rw [if_neg hs]
      refine ⟨by rw [hout], ?_, ?_, ?_⟩
      · intro s2' he _
        cases he
        rw [hout]
        exact ⟨rfl, get_file_id_set_self now st video_id fid 128⟩
      · intro s2' he hgt
        cases he
        omega
      · intro e' he
        exact absurd he (by simp)

/-- Witness for C5: a fetch stub returning a 46 MB file at 192 kbps and a
3 MB file at 128 kbps. -/
theorem C5_oversize_downgrade_witness :
    ("youtube" ≠ "vk") ∧ ("youtube" ≠ "yandex") ∧ ((192 : Nat) > 128) ∧
    ((fun b => if b = 128 then Except.ok (3 * 1024 * 1024)
        else Except.ok (46 * 1024 * 1024) : Nat → Except String Nat) 192 =
      Except.ok (46 * 1024 * 1024)) ∧ (46 * 1024 * 1024 > MAX_FILE_SIZE) ∧
    (let out := deliver_download 0 [] "vA" "youtube" 192
        (fun b => if b = 128 then Except.ok (3 * 1024 * 1024)
          else Except.ok (46 * 1024 * 1024)) "tg-file-id"
     out.2.2 = [192, 128] ∧
     (∀ s2, (fun b => if b = 128 then Except.ok (3 * 1024 * 1024)
          else Except.ok (46 * 1024 * 1024) : Nat → Except String Nat) 128 =
            Except.ok s2 → s2 ≤ MAX_FILE_SIZE →
        out.1 = DeliverOutcome.delivered 128 s2 ∧
        get_file_id 0 out.2.1 "vA" 128 = some "tg-file-id") ∧
     (∀ s2, (fun b => if b = 128 then Except.ok (3 * 1024 * 1024)
          else Except.ok (46 * 1024 * 1024) : Nat → Except String Nat) 128 =
            Except.ok s2 → s2 > MAX_FILE_SIZE →
        out.1 = DeliverOutcome.tooLargeFinal ∧ out.2.1 = []) ∧
     (∀ e, (fun b => if b = 128 then Except.ok (3 * 1024 * 1024)
          else Except.ok (46 * 1024 * 1024) : Nat → Except String Nat) 128 =
            Except.error e → out.1 = DeliverOutcome.downloadError e)) :=
  ⟨by decide, by decide, by decide, by rfl, by decide,
   C5_oversize_downgrade 0 [] "vA" "youtube" 192
     (fun b => if b = 128 then Except.ok (3 * 1024 * 1024)
       else Except.ok (46 * 1024 * 1024)) "tg-file-id" (46 * 1024 * 1024)
     (by decide) (by decide) (by decide) (by rfl) (by decide)⟩

/-! ### Duration-filter lemmas for the provider adapters -/

def durOk (t : TrackDict) : Prop := 0 < t.duration ∧ t.duration ≤ MAX_DURATION

theorem yt_entry_step_preserves (parse : String → String → String × String)
    (source : String) (acc : List TrackDict) (oe : Option YtEntry)
    (h : ∀ t ∈ acc, durOk t) : ∀ t ∈ yt_entry_step parse source acc oe, durOk t := by
  intro t ht
  cases oe with
  | none => exact h t ht
  | some e =>
    simp only [yt_entry_step] at ht
    split at ht
    · exact h t ht
    · rcases List.mem_append.mp ht with hm | hm
      · exact h t hm
      · rcases List.mem_singleton.mp hm with rfl
        unfold durOk MAX_DURATION at *
        dsimp only
        omega

theorem yt_foldl_preserves (parse : String → String → String × String)
    (source : String) :
    ∀ (entries : List (Option YtEntry)) (acc : List TrackDict),
      (∀ t ∈ acc, durOk t) →
      ∀ t ∈ entries.foldl (yt_entry_step parse source) acc, durOk t := by
  intro entries
  induction entries with
  | nil => intro acc h t ht; exact h t ht
  | cons oe rest ih =>
    intro acc h t ht
    exact ih (yt_entry_step parse source acc oe)
      (yt_entry_step_preserves parse source acc oe h) t ht

theorem vk_track_dict_durOk (tr : VkTrack)
    (h : ¬ (tr.duration.getD 0 = 0 ∨ tr.duration.getD 0 > MAX_DURATION)) :
    durOk (vk_track_dict tr) := by
  unfold durOk vk_track_dict MAX_DURATION at *
  dsimp only
  omega

theorem vk_loop_preserves :
    ∀ (l : List VkTrack) (limit : Nat) (acc : List TrackDict),
      (∀ t ∈ acc, durOk t) → ∀ t ∈ vk_loop limit acc l, durOk t := by
  intro l
  induction l with
  | nil => intro limit acc h t ht; exact h t ht
  | cons tr rest ih =>
    intro limit acc h t ht
    have hstep : ∀ (hd : ¬ (tr.duration.getD 0 = 0 ∨ tr.duration.getD 0 > MAX_DURATION)),
        ∀ t' ∈ acc ++ [vk_track_dict tr], durOk t' := by
      intro hd t' ht'
      rcases List.mem_append.mp ht' with hm | hm
      · exact h t' hm
      · rcases List.mem_singleton.mp hm with rfl
        exact vk_track_dict_durOk tr hd
    simp only [vk_loop] at ht
    split at ht
    · exact ih limit acc h t ht
    · split at ht
      · exact ih limit acc h t ht
      · rename_i hd1 hd2
        split at ht
        · exact hstep hd2 t ht
        · exact ih limit _ (hstep hd2) t ht

theorem track_to_dict_duration_le (track : YTrack) (source_id : Option String)
    (d : TrackDict) (h : track_to_dict track source_id = some d) :
    d.duration ≤ MAX_DURATION := by
  unfold track_to_dict MAX_DURATION at h
  dsimp only at h
  split at h
  · exact absurd h (by simp)
  · split at h
    · exact absurd h (by simp)
    · split at h
      · exact absurd h (by simp)
      · split at h
        · exact absurd h (by simp)
        · cases h
          unfold MAX_DURATION
          dsimp only
          omega

theorem ym_loop_preserves :
    ∀ (l : List YTrack) (limit : Nat) (acc : List TrackDict),
      (∀ t ∈ acc, t.duration ≤ MAX_DURATION) →
      ∀ t ∈ ym_loop limit acc l, t.duration ≤ MAX_DURATION := by
  intro l
  induction l with
  | nil => intro limit acc h t ht; exact h t ht
  | cons tr rest ih =>
    intro limit acc h t ht
    simp only [ym_loop] at ht
    cases htd : track_to_dict tr none with
    | none =>
      rw [htd] at ht
      dsimp only at ht
      split at ht
      · exact h t ht
      · exact ih limit acc h t ht
    | some dd =>
      rw [htd] at ht
      dsimp only at ht
      have hacc' : ∀ t' ∈ acc ++ [dd], t'.duration ≤ MAX_DURATION := by
        intro t' ht'
        rcases List.mem_append.mp ht' with hm | hm
        · exact h t' hm
        · rcases List.mem_singleton.mp hm with rfl
          exact track_to_dict_duration_le tr none t' htd
      split at ht
      · exact hacc' t ht
      · exact ih limit _ hacc' t ht

/-- A Yandex track whose duration_ms is 0 (an unplayable / missing-duration
candidate). -/
def ymZeroTrack : YTrack :=
  { title := some "Song", artists := [{ name := some "Artist" }],
    duration_ms := some 0, id := some 7 }

/-- C6 counterexample: _track_to_dict only rejects an over-limit duration
when duration_ms is truthy, so a zero-duration Yandex candidate passes the
filter and appears in search_yandex's result list. -/
theorem C6_yandex_zero_duration_counterexample :
    ((search_yandex (some "tok") true (some ())
        (Except.ok (some (some [ymZeroTrack]))) 5).filter
      (fun t => t.duration == 0)).length = 1 := by
  decide

/-- C6 (amended): the YouTube/SoundCloud adapter (_search_sync) and the VK
adapter exclude every candidate with zero/missing duration or duration
above MAX_DURATION; the Yandex adapter (_track_to_dict) only enforces the
upper bound — its candidates always satisfy duration ≤ MAX_DURATION, but
zero/missing-duration candidates are NOT excluded (see the
counterexample). -/
theorem C6_duration_filtering :
    (∀ (parse : String → String → String × String)
        (extractRes : Except String (Option (List (Option YtEntry))))
        (max_results : Nat) (source : String) (t : TrackDict),
      t ∈ search_sync parse extractRes max_results source →
      0 < t.duration ∧ t.duration ≤ MAX_DURATION) ∧
    (∀ (token : Option String) (audioOk : Bool)
        (searchRes : Except String (List VkTrack)) (limit : Nat) (t : TrackDict),
      t ∈ search_vk token audioOk searchRes limit →
      0 < t.duration ∧ t.duration ≤ MAX_DURATION) ∧
    (∀ (token : Option String) (installed : Bool) (client : Option Unit)
        (searchRes : Except String (Option (Option (List YTrack)))) (limit : Nat)
        (t : TrackDict),
      t ∈ search_yandex token installed client searchRes limit →
      t.duration ≤ MAX_DURATION) := by
  refine ⟨?_, ?_, ?_⟩
  · intro parse extractRes max_results source t ht
    cases extractRes with
    | error e => exact absurd ht (by simp [search_sync])
    | ok info =>
      unfold search_sync at ht
      have hm : t ∈ yt_entries_loop parse source (info.getD []) :=
        List.take_subset _ _ ht
      exact yt_foldl_preserves parse source (info.getD []) [] (by simp) t hm
  · intro token audioOk searchRes limit t ht
    cases token with
    | none => simp [search_vk] at ht
    | some tok =>
      simp only [search_vk] at ht
      split at ht
      · simp at ht
      · simp only [search_vk_sync] at ht
        cases audioOk with
        | false => simp at ht
        | true =>
          simp only [Bool.not_true, Bool.false_eq_true, if_false, ite_false] at ht
          cases searchRes with
          | error e => simp at ht
          | ok tracks => exact vk_loop_preserves tracks limit [] (by simp) t ht
  · intro token installed client searchRes limit t ht
    cases token with
    | none => simp [search_yandex] at ht
    | some tok =>
      simp only [search_yandex] at ht
      cases installed with
      | false => simp at ht
      | true =>
        simp only [Bool.not_true, Bool.false_eq_true, if_false, ite_false] at ht
        cases client with
        | none => simp at ht
        | some c =>
          cases searchRes with
          | error e => simp at ht
          | ok o =>
            match o with
            | none => simp at ht
            | some none => simp at ht
            | some (some l) => exact ym_loop_preserves l limit [] (by simp) t ht

/-- Concrete 215 s YouTube entry for C6's witness. -/
def ytEntryW : Option YtEntry :=
  some { id := some "v1", title := some "Bones", uploader := some "Imagine Dragons",
         duration := some 215 }

/-- The dict _search_sync produces for ytEntryW under the flipped parse stub. -/
def ytDictW : TrackDict :=
  { video_id := "v1", title := "Bones", uploader := "Imagine Dragons", duration := 215,
    duration_fmt := "3:35", source := "youtube" }

/-- Concrete VK track for C6's witness. -/
def vkTrackW : VkTrack :=
  { artist := some "A", title := some "T", duration := some 100, url := some "http-u",
    owner_id := some 1, id := some 2 }

/-- The dict _search_vk_sync produces for vkTrackW. -/
def vkDictW : TrackDict :=
  { video_id := "vk_1_2", title := "T", uploader := "A", duration := 100,
    duration_fmt := "1:40", source := "vk", vk_url := some "http-u" }

/-- Concrete 300 s Yandex track for C6's witness. -/
def ymTrackW : YTrack :=
  { title := some "S", artists := [{ name := some "Ar" }], duration_ms := some 300000,
    id := some 9 }

/-- The dict _track_to_dict produces for ymTrackW. -/
def ymDictW : TrackDict :=
  { video_id := "ym_9", title := "S", uploader := "Ar", duration := 300,
    duration_fmt := "5:00", source := "yandex", ym_track_id := some 9 }

/-- Witness for C6 on concrete provider outputs. -/
theorem C6_duration_filtering_witness :
    (ytDictW ∈ search_sync (fun a b => (b, a)) (Except.ok (some [ytEntryW])) 5 "youtube" ∧
      (0 < ytDictW.duration ∧ ytDictW.duration ≤ MAX_DURATION)) ∧
    (vkDictW ∈ search_vk (some "tok") true (Except.ok [vkTrackW]) 5 ∧
      (0 < vkDictW.duration ∧ vkDictW.duration ≤ MAX_DURATION)) ∧
    (ymDictW ∈ search_yandex (some "tok") true (some ())
        (Except.ok (some (some [ymTrackW]))) 5 ∧
      ymDictW.duration ≤ MAX_DURATION) :=
  ⟨⟨by decide,
    C6_duration_filtering.1 (fun a b => (b, a)) (Except.ok (some [ytEntryW])) 5
      "youtube" ytDictW (by decide)⟩,
   ⟨by decide,
    C6_duration_filtering.2.1 (some "tok") true (Except.ok [vkTrackW]) 5 vkDictW
      (by decide)⟩,
   ⟨by decide,
    C6_duration_filtering.2.2 (some "tok") true (some ())
      (Except.ok (some (some [ymTrackW]))) 5 ymDictW (by decide)⟩⟩

/-- C7: search never throws.  Every provider adapter converts missing
credentials, an uninitialised client, and provider exceptions into an
empty result list, and a cascade over erroring providers yields an empty
result list instead of propagating any exception. -/
theorem C7_search_never_throws :
    (∀ (parse : String → String → String × String) (e : String) (m : Nat) (src : String),
      search_sync parse (Except.error e) m src = []) ∧
    (∀ (audioOk : Bool) (e : String) (limit : Nat),
      search_vk_sync audioOk (Except.error e) limit = []) ∧
    (∀ (audioOk : Bool) (res : Except String (List VkTrack)) (limit : Nat),
      search_vk none audioOk res limit = [] ∧
      search_vk (some "") audioOk res limit = []) ∧
    (∀ (installed : Bool) (client : Option Unit)
        (res : Except String (Option (Option (List YTrack)))) (limit : Nat),
      search_yandex none installed client res limit = []) ∧
    (∀ (token : Option String) (client : Option Unit)
        (res : Except String (Option (Option (List YTrack)))) (limit : Nat),
      search_yandex token false client res limit = []) ∧
    (∀ (token : Option String) (installed : Bool)
        (res : Except String (Option (Option (List YTrack)))) (limit : Nat),
      search_yandex token installed none res limit = []) ∧
    (∀ (token : Option String) (installed : Bool) (client : Option Unit) (e : String)
        (limit : Nat),
      search_yandex token installed client (Except.error e) limit = []) ∧
    (∀ (now : Nat) (query : String) (tok : Option String) (inst : Bool)
        (cl : Option Unit) (e1 : String) (lim1 : Nat)
        (parse : String → String → String × String) (e2 e3 : String) (m : Nat)
        (tokv : Option String) (aud : Bool) (e4 : String) (lim2 : Nat),
      (do_search_cascade now [] query []
        (search_yandex tok inst cl (Except.error e1) lim1)
        (search_sync parse (Except.error e2) m "youtube")
        (search_sync parse (Except.error e3) m "soundcloud")
        (search_vk tokv aud (Except.error e4) lim2)).results = []) := by
  have hyerr : ∀ (token : Option String) (installed : Bool) (client : Option Unit)
      (e : String) (limit : Nat),
      search_yandex token installed client (Except.error e) limit = [] := by
    intro token installed client e limit
    cases token <;> cases installed <;> cases client <;> simp [search_yandex]
  have hverr : ∀ (token : Option String) (audioOk : Bool) (e : String) (limit : Nat),
      search_vk token audioOk (Except.error e) limit = [] := by
    intro token audioOk e limit
    cases token with
    | none => rfl
    | some t =>
      by_cases ht : t = "" <;> cases audioOk <;> simp [search_vk, search_vk_sync, ht]
  refine ⟨fun _ _ _ _ => rfl, ?_, ?_, ?_, ?_, ?_, hyerr, ?_⟩
  · intro audioOk e limit
    cases audioOk <;> simp [search_vk_sync]
  · intro audioOk res limit
    exact ⟨rfl, by cases audioOk <;> simp [search_vk]⟩
  · intro installed client res limit
    rfl
  · intro token client res limit
    cases token <;> simp [search_yandex]
  · intro token installed res limit
    cases token <;> cases installed <;> simp [search_yandex]
  · intro now query tok inst cl e1 lim1 parse e2 e3 m tokv aud e4 lim2
    rw [hyerr tok inst cl e1 lim1, hverr tokv aud e4 lim2]
    rfl

/-! ### Rate-limit accounting (C8, C10) -/

/-- The integer value of the hourly counter visible at time now (0 when the
key is missing or expired). -/
def counterVal (now : Nat) (st : RedisState) (uid : Nat) : Int :=
  match rget now st (limit_key uid) with
  | some (RVal.int n) => n
  | _ => 0

/-- The expiry instant recorded for a key (regardless of liveness). -/
def entry_expiry (st : RedisState) (k : String) : Option Nat :=
  match rlookup st k with
  | some e => e.expiry
  | none => none

theorem rlookup_cons_ne (st : RedisState) (k k' : String) (e : RedisEntry)
    (h : k' ≠ k) : rlookup ((k, e) :: st) k' = rlookup st k' := by
  simp only [rlookup, List.find?]
  have hb : (k == k') = false := by
    simp only [beq_eq_false_iff_ne]
    exact fun hc => h hc.symm
  simp [hb]

theorem rlookup_cons_self (st : RedisState) (k : String) (e : RedisEntry) :
    rlookup ((k, e) :: st) k = some e := by
  simp [rlookup, List.find?]

theorem rincr_of_rget_none (now : Nat) (st : RedisState) (k : String)
    (h : rget now st k = none) :
    rincr now st k = (1, (k, ⟨RVal.int 1, none⟩) :: st) := by
  unfold rget at h
  unfold rincr
  cases hl : rlookup st k with
  | none => rfl
  | some e =>
    rw [hl] at h
    dsimp only at h ⊢
    cases hlive : e.live now with
    | true => rw [hlive] at h; simp at h
    | false => simp [hlive]

theorem rincr_of_rget_int (now : Nat) (st : RedisState) (k : String) (n : Int)
    (h : rget now st k = some (RVal.int n)) :
    ∃ exp, rincr now st k = (n + 1, (k, ⟨RVal.int (n + 1), exp⟩) :: st) ∧
      RedisEntry.live now ⟨RVal.int (n + 1), exp⟩ = true := by
  unfold rget at h
  cases hl : rlookup st k with
  | none => rw [hl] at h; simp at h
  | some e =>
    rw [hl] at h
    dsimp only at h
    cases hlive : e.live now with
    | false => rw [hlive] at h; simp at h
    | true =>
      rw [hlive] at h
      simp only [if_true] at h
      have hval : e.val = RVal.int n := by
        cases h' : e.val <;> rw [h'] at h <;> simp at h
        rw [h]
      refine ⟨e.expiry, ?_, ?_⟩
      · unfold rincr
        rw [hl]
        dsimp only
        rw [hlive]
        simp only [if_true, hval]
      · unfold RedisEntry.live at hlive ⊢
        exact hlive

/-- Replay of a list of check_rate_limit calls at given instants; returns
the final store and the per-call results. -/
def run_rate_calls (uid : Nat) (prem : Bool) : List Nat → RedisState →
    RedisState × List (Bool × Int)
  | [], st => (st, [])
  | t :: rest, st =>
    let r := check_rate_limit t st uid prem
    let r2 := run_rate_calls uid prem rest r.1
    (r2.1, r.2 :: r2.2)

/-- C8 counterexample: a regular-tier user issuing 11 requests 5 s apart
(all inside one hourly window, each after the previous 5 s cooldown has
lapsed) gets 10 admitted requests, but the hourly counter ends at 11: the
ceiling-denied 11th call also incremented it, so the counter does not
equal the number of admitted requests. -/
theorem C8_counter_counts_denials_counterexample :
    (run_rate_calls 1 false [0, 5, 10, 15, 20, 25, 30, 35, 40, 45, 50] []).2.countP
        (fun p => p.1) = 10 ∧
    rget 50 (run_rate_calls 1 false [0, 5, 10, 15, 20, 25, 30, 35, 40, 45, 50] []).1
        (limit_key 1) = some (RVal.int 11) := by
  decide

/-- C8 (amended): a call blocked by the cooldown marker leaves the store
(hence the hourly counter) unchanged; every other call — admitted or
denied by the hourly ceiling — increments the counter by exactly one, is
admitted iff the incremented counter is within the tier ceiling, and on
the first increment of a window the counter's expiry is set to one hour
from now.  (So the counter equals admitted plus ceiling-denied calls of
the window, not admitted calls alone.) -/
theorem C8_hourly_counter (now : Nat) (st : RedisState) (uid : Nat) (prem : Bool)
    (hint : ∀ v, rget now st (limit_key uid) = some v → ∃ n, v = RVal.int n) :
    let out := check_rate_limit now st uid prem
    (rexists now st (cd_key uid) = true → out.1 = st) ∧
    (rexists now st (cd_key uid) = false →
      counterVal now out.1 uid = counterVal now st uid + 1 ∧
      (out.2.1 = true ↔ counterVal now st uid + 1 ≤
        (if prem then RATE_LIMIT_PREMIUM else RATE_LIMIT_REGULAR)) ∧
      (rget now st (limit_key uid) = none →
        entry_expiry out.1 (limit_key uid) = some (now + 3600))) := by
  intro out
  have hne : cd_key uid ≠ limit_key uid := cd_key_ne_limit_key uid
  cases hcd : rexists now st (cd_key uid) with
  | true =>
    constructor
    · intro _
      show (check_rate_limit now st uid prem).1 = st
      unfold check_rate_limit
      dsimp only
      rw [hcd]
      simp
    · intro hfalse
      simp at hfalse
  | false =>
    constructor
    · intro htrue
      simp at htrue
    · intro _
      cases hlk : rget now st (limit_key uid) with
      | none =>
        have hincr := rincr_of_rget_none now st (limit_key uid) hlk
        have hout : out = (if (1 : Int) >
            (if prem then RATE_LIMIT_PREMIUM else RATE_LIMIT_REGULAR) then
              ((limit_key uid, ⟨RVal.int 1, some (now + 3600)⟩) ::
                (limit_key uid, ⟨RVal.int 1, none⟩) :: st, false, 0)
            else
              ((cd_key uid, ⟨RVal.str "1",
                  some (now + (if prem then COOLDOWN_PREMIUM else COOLDOWN_REGULAR))⟩) ::
                (limit_key uid, ⟨RVal.int 1, some (now + 3600)⟩) ::
                (limit_key uid, ⟨RVal.int 1, none⟩) :: st, true, 0)) := by
          show check_rate_limit now st uid prem = _
          unfold check_rate_limit
          dsimp only
          rw [hcd]
          simp only [Bool.false_eq_true, if_false, ite_false, hincr]
          have hexp : rexpire now ((limit_key uid, ⟨RVal.int 1, none⟩) :: st)
              (limit_key uid) 3600 =
              (limit_key uid, ⟨RVal.int 1, some (now + 3600)⟩) ::
                (limit_key uid, ⟨RVal.int 1, none⟩) :: st := by
            unfold rexpire
            rw [rlookup_cons_self]
            rfl
          simp [hexp, rsetex]
        have hcv0 : counterVal now st uid = 0 := by
          unfold counterVal
          rw [hlk]
        by_cases hgt : (1 : Int) > (if prem then RATE_LIMIT_PREMIUM else RATE_LIMIT_REGULAR)
        · rw [if_pos hgt] at hout
          refine ⟨?_, ?_, ?_⟩
          · rw [hout, hcv0]
            unfold counterVal limit_key
            rw [rget_cons_self]
            simp [RedisEntry.live]
          · rw [hout, hcv0]
            simp only []
            constructor
            · intro hft
              simp at hft
            · intro hle
              omega
          · intro _
            rw [hout]
            unfold entry_expiry
            rw [rlookup_cons_self]
        · rw [if_neg hgt] at hout
          refine ⟨?_, ?_, ?_⟩
          · rw [hout, hcv0]
            unfold counterVal
            rw [rget_cons_ne _ _ _ _ _ hne.symm, rget_cons_self]
            simp [RedisEntry.live]
          · rw [hout, hcv0]
            simp only []
            constructor
            · intro _
              omega
            · intro _
              trivial
          · intro _
            rw [hout]
            unfold entry_expiry
            rw [rlookup_cons_ne _ _ _ _ hne.symm, rlookup_cons_self]
      | some v =>
        obtain ⟨n, rfl⟩ := hint v hlk
        obtain ⟨exp, hincr, hlive⟩ := rincr_of_rget_int now st (limit_key uid) n hlk
        have hcvn : counterVal now st uid = n := by
          unfold counterVal
          rw [hlk]
        have hst1 : counterVal now
            ((limit_key uid, ⟨RVal.int (n + 1), exp⟩) :: st) uid = n + 1 := by
          unfold counterVal
          rw [rget_cons_self, hlive]
          rfl
        have hst2 : ∀ st', counterVal now st' uid = n + 1 →
            counterVal now ((cd_key uid,
              ⟨RVal.str "1",
               some (now + (if prem then COOLDOWN_PREMIUM else COOLDOWN_REGULAR))⟩) ::
                st') uid = n + 1 := by
          intro st' h'
          unfold counterVal at *
          rw [rget_cons_ne _ _ _ _ _ hne.symm]
          exact h'
        -- the expiry-refresh step only fires when the new count is 1
        by_cases h1 : n + 1 = 1
        · have hexp : rexpire now ((limit_key uid, ⟨RVal.int (n + 1), exp⟩) :: st)
              (limit_key uid) 3600 =
              (limit_key uid, ⟨RVal.int (n + 1), some (now + 3600)⟩) ::
                (limit_key uid, ⟨RVal.int (n + 1), exp⟩) :: st := by
            unfold rexpire
            rw [rlookup_cons_self]
            dsimp only
            rw [hlive]
            rfl
          have hout : out = (if n + 1 >
              (if prem then RATE_LIMIT_PREMIUM else RATE_LIMIT_REGULAR) then
                ((limit_key uid, ⟨RVal.int (n + 1), some (now + 3600)⟩) ::
                  (limit_key uid, ⟨RVal.int (n + 1), exp⟩) :: st, false, 0)
              else
                ((cd_key uid, ⟨RVal.str "1",
                    some (now + (if prem then COOLDOWN_PREMIUM else COOLDOWN_REGULAR))⟩) ::
                  (limit_key uid, ⟨RVal.int (n + 1), some (now + 3600)⟩) ::
                  (limit_key uid, ⟨RVal.int (n + 1), exp⟩) :: st, true, 0)) := by
            show check_rate_limit now st uid prem = _
            unfold check_rate_limit
            dsimp only
            rw [hcd]
            simp only [Bool.false_eq_true, if_false, ite_false, hincr]
            simp only [if_pos h1, hexp, rsetex]
          have hcv1 : counterVal now ((limit_key uid,
              ⟨RVal.int (n + 1), some (now + 3600)⟩) ::
              (limit_key uid, ⟨RVal.int (n + 1), exp⟩) :: st) uid = n + 1 := by
            unfold counterVal limit_key
            rw [rget_cons_self]
            simp [RedisEntry.live]
          by_cases hgt : n + 1 > (if prem then RATE_LIMIT_PREMIUM else RATE_LIMIT_REGULAR)
          · rw [if_pos hgt] at hout
            refine ⟨?_, ?_, ?_⟩
            · rw [hout, hcvn]
              exact hcv1
            · rw [hout, hcvn]
              simp only []
              constructor
              · intro hft
                simp at hft
              · intro hle
                omega
            · intro hnone
              exact absurd hnone (by simp)
          · rw [if_neg hgt] at hout
            refine ⟨?_, ?_, ?_⟩
            · rw [hout, hcvn]
              exact hst2 _ hcv1
            · rw [hout, hcvn]
              simp only []
              constructor
              · intro _
                omega
              · intro _
                trivial
            · intro hnone
              exact absurd hnone (by simp)
        · have hout : out = (if n + 1 >
              (if prem then RATE_LIMIT_PREMIUM else RATE_LIMIT_REGULAR) then
                ((limit_key uid, ⟨RVal.int (n + 1), exp⟩) :: st, false, 0)
              else
                ((cd_key uid, ⟨RVal.str "1",
                    some (now + (if prem then COOLDOWN_PREMIUM else COOLDOWN_REGULAR))⟩) ::
                  (limit_key uid, ⟨RVal.int (n + 1), exp⟩) :: st, true, 0)) := by
            show check_rate_limit now st uid prem = _
            unfold check_rate_limit
            dsimp only
            rw [hcd]
            simp only [Bool.false_eq_true, if_false, ite_false, hincr]
            have h0 : ¬ n = 0 := by omega
            simp [h0, rsetex]
          by_cases hgt : n + 1 > (if prem then RATE_LIMIT_PREMIUM else RATE_LIMIT_REGULAR)
          · rw [if_pos hgt] at hout
            refine ⟨?_, ?_, ?_⟩
            · rw [hout, hcvn]
              exact hst1
            · rw [hout, hcvn]
              simp only []
              constructor
              · intro hft
                simp at hft
              · intro hle
                omega
            · intro hnone
              exact absurd hnone (by simp)
          · rw [if_neg hgt] at hout
            refine ⟨?_, ?_, ?_⟩
            · rw [hout, hcvn]
              exact hst2 _ hst1
            · rw [hout, hcvn]
              simp only []
              constructor
              · intro _
                omega
              · intro _
                trivial
            · intro hnone
              exact absurd hnone (by simp)

/-- Witness for C8 on the empty store: the first call of a window
increments the counter from 0 to 1, is admitted, and stamps the one-hour
expiry. -/
theorem C8_hourly_counter_witness :
    rexists 0 ([] : RedisState) (cd_key 1) = false ∧
    counterVal 0 (check_rate_limit 0 [] 1 false).1 1 = counterVal 0 [] 1 + 1 ∧
    ((check_rate_limit 0 [] 1 false).2.1 = true ↔ counterVal 0 [] 1 + 1 ≤
      (if false then RATE_LIMIT_PREMIUM else RATE_LIMIT_REGULAR)) ∧
    (rget 0 ([] : RedisState) (limit_key 1) = none →
      entry_expiry (check_rate_limit 0 [] 1 false).1 (limit_key 1) = some (0 + 3600)) :=
  ⟨by decide,
   (C8_hourly_counter 0 [] 1 false
      (fun v hv => absurd hv (by simp [rget, rlookup, List.find?]))).2 (by decide)⟩

/-- The row produced by upsert_track's update branch. -/
def updatedRow (tr : TrackRow) (file_id : Option String) : TrackRow :=
  { tr with file_id := pyOptStrOr file_id tr.file_id, downloads := tr.downloads + 1 }

/-- The row produced by upsert_track's insert branch. -/
def insertedRow (sid : String) (title artist : Option String) (duration : Option Nat)
    (file_id : Option String) (source : String) (channel genre : Option String)
    (bpm : Option Nat) : TrackRow :=
  { source_id := sid, title := title, artist := artist, duration := duration,
    file_id := file_id, source := some source, channel := channel, genre := genre,
    bpm := bpm, downloads := 1 }

/-- C9: upsert_track frame property.  Updating an existing row leaves
title/artist/duration untouched, increments downloads by exactly one
(hence never decreases it), and replaces the stored handle only by a
truthy (non-null, non-empty) new handle — a null handle never erases an
existing one; a first upsert creates the row with downloads = 1 and the
supplied fields. -/
theorem C9_upsert_track_frame :
    (∀ (table : List TrackRow) (sid : String) (title artist : Option String)
        (duration : Option Nat) (file_id : Option String) (source : String)
        (channel genre : Option String) (bpm : Option Nat) (tr : TrackRow),
      table.find? (fun t => t.source_id == sid) = some tr →
      let r := upsert_track table sid title artist duration file_id source channel
        genre bpm
      r.2.title = tr.title ∧ r.2.artist = tr.artist ∧ r.2.duration = tr.duration ∧
      r.2.downloads = tr.downloads + 1 ∧
      (file_id = none → r.2.file_id = tr.file_id) ∧
      (r.2.file_id = file_id ∨ r.2.file_id = tr.file_id) ∧
      (∀ t ∈ r.1, t.source_id = sid → t = r.2)) ∧
    (∀ (table : List TrackRow) (sid : String) (title artist : Option String)
        (duration : Option Nat) (file_id : Option String) (source : String)
        (channel genre : Option String) (bpm : Option Nat),
      table.find? (fun t => t.source_id == sid) = none →
      let r := upsert_track table sid title artist duration file_id source channel
        genre bpm
      r.2.downloads = 1 ∧ r.2.title = title ∧ r.2.artist = artist ∧
      r.2.duration = duration ∧ r.2.file_id = file_id ∧ r.1 = table ++ [r.2]) := by
  constructor
  · intro table sid title artist duration file_id source channel genre bpm tr hfind
    intro r
    have hout : r = (table.map (fun t => if t.source_id == sid then
          updatedRow tr file_id else t), updatedRow tr file_id) := by
      show upsert_track table sid title artist duration file_id source channel
        genre bpm = _
      unfold upsert_track updatedRow
      rw [hfind]
    refine ⟨by rw [hout]; try rfl, by rw [hout]; try rfl, by rw [hout]; try rfl,
      by rw [hout]; try rfl, ?_, ?_, ?_⟩
    · intro hnone
      subst hnone
      rw [hout]
      rfl
    · rw [hout]
      show pyOptStrOr file_id tr.file_id = file_id ∨
        pyOptStrOr file_id tr.file_id = tr.file_id
      unfold pyOptStrOr
      cases file_id with
      | none => exact Or.inr rfl
      | some s =>
        by_cases hs : s = ""
        · simp [hs]
        · simp [hs]
    · intro t ht hts
      rw [hout] at ht ⊢
      dsimp only at ht
      rcases List.mem_map.mp ht with ⟨u, _, hu⟩
      by_cases hm : u.source_id == sid
      · rw [if_pos hm] at hu
        exact hu.symm
      · rw [if_neg hm] at hu
        subst hu
        exact absurd (by simp [hts]) hm
  · intro table sid title artist duration file_id source channel genre bpm hfind
    intro r
    have hout : r = (table ++
          [insertedRow sid title artist duration file_id source channel genre bpm],
        insertedRow sid title artist duration file_id source channel genre bpm) := by
      show upsert_track table sid title artist duration file_id source channel
        genre bpm = _
      unfold upsert_track insertedRow
      rw [hfind]
    exact ⟨by rw [hout]; try rfl, by rw [hout]; try rfl, by rw [hout]; try rfl,
      by rw [hout]; try rfl, by rw [hout]; try rfl, by rw [hout]; try rfl⟩

/-- A pre-existing row for C9's witness. -/
def oldRow : TrackRow :=
  { source_id := "id9", title := some "Old T", artist := some "Old A",
    duration := some 111, file_id := some "oldfid", source := some "youtube",
    channel := some "external", downloads := 4 }

/-- Witness for C9: updating oldRow with a null handle keeps the old
handle and bumps downloads; inserting a fresh id creates downloads = 1. -/
theorem C9_upsert_track_frame_witness :
    ([oldRow].find? (fun t => t.source_id == "id9") = some oldRow ∧
     (let r := upsert_track [oldRow] "id9" (some "New T") (some "New A") (some 222)
        none "youtube" (some "external") none none
      r.2.title = oldRow.title ∧ r.2.artist = oldRow.artist ∧
      r.2.duration = oldRow.duration ∧ r.2.downloads = oldRow.downloads + 1 ∧
      ((none : Option String) = none → r.2.file_id = oldRow.file_id) ∧
      (r.2.file_id = none ∨ r.2.file_id = oldRow.file_id) ∧
      (∀ t ∈ r.1, t.source_id = "id9" → t = r.2))) ∧
    (([] : List TrackRow).find? (fun t => t.source_id == "idNew") = none ∧
     (let r := upsert_track [] "idNew" (some "T") (some "A") (some 100) (some "fid")
        "youtube" (some "external") none none
      r.2.downloads = 1 ∧ r.2.title = some "T" ∧ r.2.artist = some "A" ∧
      r.2.duration = some 100 ∧ r.2.file_id = some "fid" ∧ r.1 = [] ++ [r.2])) :=
  ⟨⟨by decide,
    C9_upsert_track_frame.1 [oldRow] "id9" (some "New T") (some "New A") (some 222)
      none "youtube" (some "external") none none oldRow (by decide)⟩,
   ⟨by decide,
    C9_upsert_track_frame.2 [] "idNew" (some "T") (some "A") (some 100) (some "fid")
      "youtube" (some "external") none none (by decide)⟩⟩

theorem rget_rincr_ne (now now' : Nat) (st : RedisState) (k k' : String) (h : k' ≠ k) :
    rget now' (rincr now st k).2 k' = rget now' st k' := by
  unfold rincr
  repeat' split
  all_goals exact rget_cons_ne _ _ _ _ _ h

theorem rget_rexpire_ne (now now' : Nat) (st : RedisState) (k k' : String) (secs : Nat)
    (h : k' ≠ k) : rget now' (rexpire now st k secs) k' = rget now' st k' := by
  unfold rexpire
  repeat' split
  all_goals first
  | exact rget_cons_ne _ _ _ _ _ h
  | rfl

/-- C10: return-value invariant of check_rate_limit.  An allowed call
returns retry_after 0; a denial caused by a live cooldown marker returns
retry_after at least 1; a denial caused by the hourly ceiling returns
retry_after 0 and sets no cooldown marker — so the two denial causes are
distinguished exactly by retry_after being positive. -/
theorem C10_retry_semantics (now : Nat) (st : RedisState) (uid : Nat) (prem : Bool) :
    let out := check_rate_limit now st uid prem
    (out.2.1 = true → out.2.2 = 0) ∧
    (rexists now st (cd_key uid) = true → out.2.1 = false ∧ 1 ≤ out.2.2) ∧
    (rexists now st (cd_key uid) = false → out.2.1 = false →
      out.2.2 = 0 ∧ rexists now out.1 (cd_key uid) = false) := by
  intro out
  have hne : cd_key uid ≠ limit_key uid := cd_key_ne_limit_key uid
  cases hcd : rexists now st (cd_key uid) with
  | true =>
    have hout : out = (st, false, max (rttl now st (cd_key uid)) 1) := by
      show check_rate_limit now st uid prem = _
      unfold check_rate_limit
      dsimp only
      rw [hcd]
      simp
    refine ⟨?_, ?_, ?_⟩
    · intro ht
      rw [hout] at ht
      simp at ht
    · intro _
      rw [hout]
      exact ⟨rfl, le_max_right _ 1⟩
    · intro hf
      exact absurd hf (by simp)
  | false =>
    have hcdget : rget now st (cd_key uid) = none := by
      unfold rexists at hcd
      cases hg : rget now st (cd_key uid) with
      | none => rfl
      | some v => rw [hg] at hcd; simp at hcd
    have hst2 : rget now (if (rincr now st (limit_key uid)).1 = 1 then
        rexpire now (rincr now st (limit_key uid)).2 (limit_key uid) 3600
        else (rincr now st (limit_key uid)).2) (cd_key uid) = none := by
      by_cases h1 : (rincr now st (limit_key uid)).1 = 1
      · rw [if_pos h1, rget_rexpire_ne _ _ _ _ _ _ hne, rget_rincr_ne _ _ _ _ _ hne,
          hcdget]
      · rw [if_neg h1, rget_rincr_ne _ _ _ _ _ hne, hcdget]
    by_cases hgt : (rincr now st (limit_key uid)).1 >
        (if prem then RATE_LIMIT_PREMIUM else RATE_LIMIT_REGULAR)
    · have hout : out = ((if (rincr now st (limit_key uid)).1 = 1 then
          rexpire now (rincr now st (limit_key uid)).2 (limit_key uid) 3600
          else (rincr now st (limit_key uid)).2), false, 0) := by
        show check_rate_limit now st uid prem = _
        unfold check_rate_limit
        dsimp only
        rw [hcd]
        simp only [Bool.false_eq_true, if_false, ite_false]
        rw [if_pos hgt]
      refine ⟨?_, ?_, ?_⟩
      · intro ht
        rw [hout] at ht
        simp at ht
      · intro htrue
        exact absurd htrue (by simp)
      · intro _ _
        rw [hout]
        refine ⟨rfl, ?_⟩
        show rexists now _ (cd_key uid) = false
        unfold rexists
        rw [hst2]
        rfl
    · have hout : out = (rsetex now (if (rincr now st (limit_key uid)).1 = 1 then
          rexpire now (rincr now st (limit_key uid)).2 (limit_key uid) 3600
          else (rincr now st (limit_key uid)).2) (cd_key uid)
            (if prem then COOLDOWN_PREMIUM else COOLDOWN_REGULAR) (RVal.str "1"),
          true, 0) := by
        show check_rate_limit now st uid prem = _
        unfold check_rate_limit
        dsimp only
        rw [hcd]
        simp only [Bool.false_eq_true, if_false, ite_false]
        rw [if_neg hgt]
      refine ⟨?_, ?_, ?_⟩
      · intro _
        rw [hout]
      · intro htrue
        exact absurd htrue (by simp)
      · intro _ hf
        rw [hout] at hf
        simp at hf

/-- A store holding a live cooldown marker for user 1. -/
def stCooldown : RedisState := rsetex 0 [] (cd_key 1) 5 (RVal.str "1")

/-- A store where user 1's hourly counter already sits at the regular
ceiling (10), with no cooldown marker. -/
def stAtCeiling : RedisState := [(limit_key 1, ⟨RVal.int 10, some 3600⟩)]

/-- Witness for C10: an admitted call returns 0; a call under a cooldown
marker is denied with retry_after at least 1; a call over the hourly
ceiling is denied with retry_after 0 and still no cooldown marker. -/
theorem C10_retry_semantics_witness :
    ((check_rate_limit 0 [] 1 false).2.1 = true →
      (check_rate_limit 0 [] 1 false).2.2 = 0) ∧
    (rexists 2 stCooldown (cd_key 1) = true ∧
      ((check_rate_limit 2 stCooldown 1 false).2.1 = false ∧
       1 ≤ (check_rate_limit 2 stCooldown 1 false).2.2)) ∧
    (rexists 0 stAtCeiling (cd_key 1) = false ∧
      (check_rate_limit 0 stAtCeiling 1 false).2.1 = false ∧
      ((check_rate_limit 0 stAtCeiling 1 false).2.2 = 0 ∧
       rexists 0 (check_rate_limit 0 stAtCeiling 1 false).1 (cd_key 1) = false)) :=
  ⟨(C10_retry_semantics 0 [] 1 false).1,
   ⟨by decide, (C10_retry_semantics 2 stCooldown 1 false).2.1 (by decide)⟩,
   ⟨by decide, by decide,
    (C10_retry_semantics 0 stAtCeiling 1 false).2.2 (by decide) (by decide)⟩⟩

end MusicBot
